import Mathlib

/-!
Verification of the pps-gpio edge-capture driver
(drivers/pps/clients/pps-gpio.c) against its natural-language
specification.  The C source is shallowly embedded: each driver
function becomes a Lean function over explicit state and environment
records, interrupts become one invocation of the handler function per
edge notification, and fallible host calls are modelled by environment
flags recording whether each call succeeds.
-/

namespace PpsGpio

/-- Event kind classified by the edge handler.  The C code expresses the
kind through the constant passed to pps_event (PPS_CAPTUREASSERT or
PPS_CAPTURECLEAR) or through taking no branch at all. -/
inductive EventKind where
  | Assert
  | Clear
  | Ignored
deriving DecidableEq, Repr

/-- Logic level of the monitored line, as in the spec data model.
gpio_get_value in the C source returns nonzero for High. -/
inductive LogicLevel where
  | High
  | Low
deriving DecidableEq, Repr

/-- The level as the truthiness of the C variable rising_edge, which
holds the result of gpio_get_value. -/
def LogicLevel.toRising : LogicLevel → Bool
  | LogicLevel.High => true
  | LogicLevel.Low => false

/-- struct pps_gpio_platform_data (linux/pps-gpio.h): the static
polarity configuration of one line. -/
structure pps_gpio_platform_data where
  gpio_pin : Nat
  gpio_label : String
  assert_falling_edge : Bool
  capture_clear : Bool
deriving DecidableEq, Repr

/-- The classification performed by the conditional chain in
pps_gpio_irq_handler, with rising_edge the value read from the line:
the first branch fires PPS_CAPTUREASSERT, the second fires
PPS_CAPTURECLEAR, and no branch means the edge is dropped. -/
def classifyEdge (pdata : pps_gpio_platform_data) (rising_edge : Bool) : EventKind :=
  if (rising_edge && !pdata.assert_falling_edge) ||
      (!rising_edge && pdata.assert_falling_edge) then
    EventKind.Assert
  else if pdata.capture_clear &&
      ((rising_edge && pdata.assert_falling_edge) ||
       (!rising_edge && !pdata.assert_falling_edge)) then
    EventKind.Clear
  else
    EventKind.Ignored

/-- Classifier table as the spec words it in section 4.2: when
assert_on_falling is false, High gives Assert and Low gives Clear when
capture_clear_edge is set, otherwise Ignored; symmetrically when
assert_on_falling is true. -/
def specClassify (assert_on_falling capture_clear_edge : Bool)
    (lvl : LogicLevel) : EventKind :=
  if assert_on_falling = false then
    match lvl with
    | LogicLevel.High => EventKind.Assert
    | LogicLevel.Low =>
        if capture_clear_edge then EventKind.Clear else EventKind.Ignored
  else
    match lvl with
    | LogicLevel.Low => EventKind.Assert
    | LogicLevel.High =>
        if capture_clear_edge then EventKind.Clear else EventKind.Ignored

/-- PPS mode/event bits from the uapi header linux/pps.h. -/
def PPS_CAPTUREASSERT : Nat := 0x01

def PPS_CAPTURECLEAR : Nat := 0x02

def PPS_OFFSETASSERT : Nat := 0x10

def PPS_OFFSETCLEAR : Nat := 0x20

def PPS_ECHOASSERT : Nat := 0x40

def PPS_ECHOCLEAR : Nat := 0x80

def PPS_CANWAIT : Nat := 0x100

def PPS_TSFMT_TSPEC : Nat := 0x1000

/-- Edge-trigger bits from linux/interrupt.h. -/
def IRQF_TRIGGER_RISING : Nat := 0x01

def IRQF_TRIGGER_FALLING : Nat := 0x02

/-- One call to pps_event as made by the handler: the captured
timestamp, the event bit (PPS_CAPTUREASSERT or PPS_CAPTURECLEAR), and
the echo payload, which the handler always passes as NULL. -/
structure pps_event_call where
  ts : Nat
  event_bit : Nat
  echo_payload : Option Nat
deriving DecidableEq, Repr

/-- Return value of an interrupt handler.  pps_gpio_irq_handler ends in
an unconditional return IRQ_HANDLED. -/
inductive irqreturn where
  | IRQ_HANDLED
  | IRQ_NONE
deriving DecidableEq, Repr

/-- The pps_event calls made by one invocation of pps_gpio_irq_handler,
read off the two guarded branches of the C source: the assert branch,
then the clear branch guarded by capture_clear, then no call at all. -/
def pps_gpio_irq_calls (pdata : pps_gpio_platform_data) (ts : Nat)
    (rising_edge : Bool) : List pps_event_call :=
  if (rising_edge && !pdata.assert_falling_edge) ||
      (!rising_edge && pdata.assert_falling_edge) then
    [⟨ts, PPS_CAPTUREASSERT, none⟩]
  else if pdata.capture_clear &&
      ((rising_edge && pdata.assert_falling_edge) ||
       (!rising_edge && !pdata.assert_falling_edge)) then
    [⟨ts, PPS_CAPTURECLEAR, none⟩]
  else
    []

/-- Primitive operations the handler performs on its environment, in
program order: the clock read pps_get_ts, the level read
gpio_get_value, and each pps_event dispatch. -/
inductive HandlerStep where
  | get_ts (t : Nat)
  | gpio_get_value (pin : Nat) (level : Bool)
  | pps_event (ts : Nat) (event_bit : Nat)
deriving DecidableEq, Repr

/-- The sequence of primitive operations of one handler invocation,
transcribed from the C body: pps_get_ts comes first, then the
gpio_get_value read of the line, then whatever pps_event call the
conditional chain selects. -/
def pps_gpio_irq_trace (pdata : pps_gpio_platform_data) (t : Nat)
    (level : Bool) : List HandlerStep :=
  HandlerStep.get_ts t ::
    HandlerStep.gpio_get_value pdata.gpio_pin level ::
      (pps_gpio_irq_calls pdata t level).map
        (fun c => HandlerStep.pps_event c.ts c.event_bit)

/-- struct pps_source_info fields the claims touch (mode bitmask). -/
structure pps_source_info where
  mode : Nat
deriving DecidableEq, Repr

/-- The registered PPS source; default_params records the parameter
word passed to pps_register_source. -/
structure pps_device where
  default_params : Nat
deriving DecidableEq, Repr

/-- struct pps_gpio_device_data: the per-device bookkeeping record. -/
structure pps_gpio_device_data where
  irq : Int
  pps : pps_device
  info : pps_source_info
  pdata : pps_gpio_platform_data
deriving DecidableEq, Repr

/-- pps_gpio_irq_handler as a state-passing function: the C handler
reads info through a const pointer and performs no store to the device
bookkeeping, so the embedding returns the state it was given together
with the pps_event calls made and the IRQ_HANDLED return value. -/
def pps_gpio_irq_handler (data : pps_gpio_device_data) (t : Nat)
    (level : Bool) : pps_gpio_device_data × List pps_event_call × irqreturn :=
  (data, pps_gpio_irq_calls data.pdata t level, irqreturn.IRQ_HANDLED)

/-- One edge notification delivered to the handler: the timestamp the
clock returns, the level the line reads, and whether the consumer sink
would accept a dispatch.  The C handler never consults the consumer
availability — pps_event returns void and its outcome is ignored. -/
structure Notification where
  ts : Nat
  level : Bool
  consumer_ok : Bool
deriving DecidableEq, Repr

/-- Outcome of handling one notification: the classification, the
dispatch attempts made, and the handler return value. -/
structure EventOutcome where
  kind : EventKind
  dispatch_attempts : List pps_event_call
  ret : irqreturn
deriving DecidableEq, Repr

/-- Handling of a single notification, assembled from the handler body:
classification by the conditional chain, the pps_event calls it makes,
and the unconditional IRQ_HANDLED return.  The consumer_ok field of the
notification is deliberately unread, as in the C source. -/
def handleNotification (pdata : pps_gpio_platform_data)
    (n : Notification) : EventOutcome :=
  ⟨classifyEdge pdata n.level, pps_gpio_irq_calls pdata n.ts n.level,
    irqreturn.IRQ_HANDLED⟩

/-- A session processes a sequence of edge notifications by one
independent handler invocation per notification, in arrival order. -/
def handleSeq (pdata : pps_gpio_platform_data)
    (ns : List Notification) : List EventOutcome :=
  ns.map (handleNotification pdata)

/-- Result of a device-tree lookup as of_get_pps_gpio_pdata consumes
it: gpio0 is the result of of_get_gpio(np, 0) when non-negative, and
assert_falling_edge_prop records whether of_get_property finds the
assert-falling-edge property. -/
structure device_node where
  gpio0 : Option Nat
  assert_falling_edge_prop : Bool
deriving DecidableEq, Repr

def PPS_GPIO_NAME : String := "pps-gpio"

/-- of_get_pps_gpio_pdata from the C source: devm_kzalloc yields a
zero-filled record (every field false or zero), the GPIO number is
fetched (failure returns NULL), gpio_pin and gpio_label are filled in,
and assert_falling_edge is set only when the device-tree property is
present.  No statement ever touches capture_clear. -/
def of_get_pps_gpio_pdata (alloc_ok : Bool) (np : device_node) :
    Option pps_gpio_platform_data :=
  if alloc_ok = false then none
  else
    let pdata : pps_gpio_platform_data := ⟨0, "", false, false⟩
    match np.gpio0 with
    | none => none
    | some pin =>
      let pdata := { pdata with gpio_pin := pin, gpio_label := PPS_GPIO_NAME }
      let pdata :=
        if np.assert_falling_edge_prop then
          { pdata with assert_falling_edge := true }
        else pdata
      some pdata

/-- The source-info mode word assembled in pps_gpio_probe. -/
def probe_info_mode (pdata : pps_gpio_platform_data) : Nat :=
  let mode := PPS_CAPTUREASSERT ||| PPS_OFFSETASSERT ||| PPS_ECHOASSERT |||
    PPS_CANWAIT ||| PPS_TSFMT_TSPEC
  if pdata.capture_clear then
    mode ||| PPS_CAPTURECLEAR ||| PPS_OFFSETCLEAR ||| PPS_ECHOCLEAR
  else mode

/-- The default-parameter word pps_gpio_probe passes to
pps_register_source. -/
def probe_default_params (pdata : pps_gpio_platform_data) : Nat :=
  let p := PPS_CAPTUREASSERT ||| PPS_OFFSETASSERT
  if pdata.capture_clear then p ||| PPS_CAPTURECLEAR ||| PPS_OFFSETCLEAR
  else p

/-- Environment of one probe attempt: the resolved platform data and
the success or failure of each fallible host call, in the order the C
code makes them. -/
structure ProbeEnv where
  platform_pdata : Option pps_gpio_platform_data
  gpio_request_ok : Bool
  gpio_direction_ok : Bool
  gpio_irq : Int
  kzalloc_ok : Bool
  pps_register_ok : Bool
  request_irq_ok : Bool
deriving DecidableEq, Repr

/-- Which externally visible resources remain held when probe
returns. -/
structure Resources where
  gpio_requested : Bool
  data_allocated : Bool
  pps_registered : Bool
  irq_requested : Bool
deriving DecidableEq, Repr

def noResources : Resources := ⟨false, false, false, false⟩

/-- pps_gpio_setup from the C source: gpio_request failure returns
-EINVAL with nothing acquired; gpio_direction_input failure frees the
GPIO again and returns -EINVAL; otherwise the GPIO stays requested. -/
def pps_gpio_setup (env : ProbeEnv) : Except Int Unit × Bool :=
  if env.gpio_request_ok = false then (Except.error (-22), false)
  else if env.gpio_direction_ok = false then (Except.error (-22), false)
  else (Except.ok (), true)

/-- pps_gpio_probe from the C source, step by step: missing platform
data returns -ENODEV; a pinctrl failure only warns; a setup failure
returns -EINVAL; a negative gpio_to_irq result returns -EINVAL; a
failed kzalloc returns -ENOMEM; a failed pps_register_source frees the
bookkeeping record and returns -EINVAL; a failed devm_request_irq
unregisters the source, frees the record and returns -EINVAL.  The
paired Resources record the holdings at each return: note that none of
the error paths after pps_gpio_setup succeeded calls gpio_free, so the
GPIO line stays requested there. -/
def pps_gpio_probe (env : ProbeEnv) :
    Except Int pps_gpio_device_data × Resources :=
  match env.platform_pdata with
  | none => (Except.error (-19), noResources)
  | some pdata =>
    match pps_gpio_setup env with
    | (Except.error _, g) => (Except.error (-22), ⟨g, false, false, false⟩)
    | (Except.ok _, g) =>
      if env.gpio_irq < 0 then
        (Except.error (-22), ⟨g, false, false, false⟩)
      else if env.kzalloc_ok = false then
        (Except.error (-12), ⟨g, false, false, false⟩)
      else if env.pps_register_ok = false then
        (Except.error (-22), ⟨g, false, false, false⟩)
      else if env.request_irq_ok = false then
        (Except.error (-22), ⟨g, false, false, false⟩)
      else
        (Except.ok ⟨env.gpio_irq, ⟨probe_default_params pdata⟩,
            ⟨probe_info_mode pdata⟩, pdata⟩,
          ⟨g, true, true, true⟩)

/-- A probe environment in which platform data is present, GPIO setup
succeeds and gpio_to_irq then fails with -1. -/
def probeEnvIrqMapFails : ProbeEnv :=
  ⟨some ⟨4, "pps-gpio", false, false⟩, true, true, -1, true, true, true⟩

/-- Return outcome of pps_gpio_remove: a normal return code, or a fault
from dereferencing a null device-data pointer. -/
inductive RemoveOutcome where
  | returned (code : Int)
  | null_deref
deriving DecidableEq, Repr

/-- State pps_gpio_remove acts on: the drvdata pointer stored in the
platform device, plus counters of how often pps_unregister_source and
kfree have been called, to observe double releases. -/
structure RemoveState where
  drvdata : Option pps_gpio_device_data
  unregister_calls : Nat
  kfree_calls : Nat
deriving DecidableEq, Repr

/-- pps_gpio_remove from the C source: it loads drvdata, stores NULL
back, then calls pps_unregister_source(data->pps) and kfree(data) and
returns 0.  When drvdata was already NULL, the store of NULL still
happens but the very next access data->pps dereferences a null pointer
before any release is performed. -/
def pps_gpio_remove (s : RemoveState) : RemoveState × RemoveOutcome :=
  match s.drvdata with
  | none => ({ s with drvdata := none }, RemoveOutcome.null_deref)
  | some _ =>
      (⟨none, s.unregister_calls + 1, s.kfree_calls + 1⟩,
        RemoveOutcome.returned 0)

/-- A device-data record as left by one successful probe. -/
def startedDeviceData : pps_gpio_device_data :=
  ⟨17, ⟨0x11⟩, ⟨0x1151⟩, ⟨4, "pps-gpio", false, false⟩⟩

/-- A platform-device state with an active session installed. -/
def startedRemoveState : RemoveState :=
  ⟨some startedDeviceData, 0, 0⟩

/-- get_irqf_trigger_flags from the C source: the primary edge bit is
chosen by assert_falling_edge, and when capture_clear is set the other
edge bit is or-ed in, selected by testing the rising bit of the flags
already chosen (C truthiness of flags & IRQF_TRIGGER_RISING). -/
def get_irqf_trigger_flags (pdata : pps_gpio_platform_data) : Nat :=
  let flags := if pdata.assert_falling_edge then IRQF_TRIGGER_FALLING
               else IRQF_TRIGGER_RISING
  if pdata.capture_clear then
    flags ||| (if flags &&& IRQF_TRIGGER_RISING ≠ 0 then IRQF_TRIGGER_FALLING
               else IRQF_TRIGGER_RISING)
  else
    flags

end PpsGpio

namespace PpsGpio

/-- Claim C1: for every combination of polarity configuration and
observed level, the classifier of the edge handler produces exactly the
EventKind of the table in section 4.2 of the spec. -/
theorem classifyEdge_matches_spec_table (pin : Nat) (label : String)
    (af cc : Bool) (lvl : LogicLevel) :
    classifyEdge ⟨pin, label, af, cc⟩ lvl.toRising = specClassify af cc lvl := by
  cases lvl <;> cases af <;> cases cc <;> rfl

/-- Claim C2: each edge notification forwards at most one event to the
consumer sink; an Assert classification is always forwarded, a Clear
classification is forwarded and only arises with capture_clear enabled,
and an Ignored classification forwards nothing and raises no error. -/
theorem dispatch_at_most_one_forwarding (pdata : pps_gpio_platform_data)
    (ts : Nat) (level : Bool) :
    (pps_gpio_irq_calls pdata ts level).length ≤ 1 ∧
    (classifyEdge pdata level = EventKind.Assert →
      pps_gpio_irq_calls pdata ts level = [⟨ts, PPS_CAPTUREASSERT, none⟩]) ∧
    (classifyEdge pdata level = EventKind.Clear →
      pdata.capture_clear = true ∧
      pps_gpio_irq_calls pdata ts level = [⟨ts, PPS_CAPTURECLEAR, none⟩]) ∧
    (classifyEdge pdata level = EventKind.Ignored →
      pps_gpio_irq_calls pdata ts level = []) := by
  obtain ⟨pin, label, af, cc⟩ := pdata
  cases af <;> cases cc <;> cases level <;>
    simp [classifyEdge, pps_gpio_irq_calls]

/-- Witness for claim C2 at a rising-primary, clear-capturing
configuration observing a Low level (the Clear case). -/
theorem dispatch_at_most_one_forwarding_witness :
    (pps_gpio_irq_calls ⟨4, "pps-gpio", false, true⟩ 7 false).length ≤ 1 ∧
    (classifyEdge ⟨4, "pps-gpio", false, true⟩ false = EventKind.Assert →
      pps_gpio_irq_calls ⟨4, "pps-gpio", false, true⟩ 7 false =
        [⟨7, PPS_CAPTUREASSERT, none⟩]) ∧
    (classifyEdge ⟨4, "pps-gpio", false, true⟩ false = EventKind.Clear →
      (⟨4, "pps-gpio", false, true⟩ : pps_gpio_platform_data).capture_clear = true ∧
      pps_gpio_irq_calls ⟨4, "pps-gpio", false, true⟩ 7 false =
        [⟨7, PPS_CAPTURECLEAR, none⟩]) ∧
    (classifyEdge ⟨4, "pps-gpio", false, true⟩ false = EventKind.Ignored →
      pps_gpio_irq_calls ⟨4, "pps-gpio", false, true⟩ 7 false = []) :=
  dispatch_at_most_one_forwarding ⟨4, "pps-gpio", false, true⟩ 7 false

/-- Claim C3: in every handler invocation the timestamp read is the
first operation of the trace, strictly before the level read, and every
pps_event dispatched carries exactly that initially captured value. -/
theorem timestamp_captured_before_level_read (pdata : pps_gpio_platform_data)
    (t : Nat) (level : Bool) :
    (pps_gpio_irq_trace pdata t level).get? 0 = some (HandlerStep.get_ts t) ∧
    (pps_gpio_irq_trace pdata t level).get? 1 =
      some (HandlerStep.gpio_get_value pdata.gpio_pin level) ∧
    (∀ ts bit, HandlerStep.pps_event ts bit ∈ pps_gpio_irq_trace pdata t level →
      ts = t) := by
  refine ⟨rfl, rfl, ?_⟩
  intro ts bit h
  obtain ⟨pin, label, af, cc⟩ := pdata
  cases af <;> cases cc <;> cases level <;>
    simp [pps_gpio_irq_trace, pps_gpio_irq_calls] at h <;>
    simp [h.1]

/-- Witness for claim C3 at a falling-primary configuration observing a
Low level (the Assert case). -/
theorem timestamp_captured_before_level_read_witness :
    (pps_gpio_irq_trace ⟨4, "pps-gpio", true, false⟩ 9 false).get? 0 =
      some (HandlerStep.get_ts 9) ∧
    (pps_gpio_irq_trace ⟨4, "pps-gpio", true, false⟩ 9 false).get? 1 =
      some (HandlerStep.gpio_get_value 4 false) ∧
    (∀ ts bit,
      HandlerStep.pps_event ts bit ∈ pps_gpio_irq_trace ⟨4, "pps-gpio", true, false⟩ 9 false →
      ts = 9) :=
  timestamp_captured_before_level_read ⟨4, "pps-gpio", true, false⟩ 9 false

/-- Claim C4: the trigger flags always contain the primary edge bit
(falling when assert_falling_edge, rising otherwise), contain the
complementary edge bit exactly when capture_clear is set, and with
capture_clear false reduce to the primary bit alone. -/
theorem trigger_flags_primary_and_complementary (pin : Nat) (label : String)
    (af cc : Bool) :
    get_irqf_trigger_flags ⟨pin, label, af, cc⟩ &&&
        (if af then IRQF_TRIGGER_FALLING else IRQF_TRIGGER_RISING) =
      (if af then IRQF_TRIGGER_FALLING else IRQF_TRIGGER_RISING) ∧
    get_irqf_trigger_flags ⟨pin, label, af, cc⟩ &&&
        (if af then IRQF_TRIGGER_RISING else IRQF_TRIGGER_FALLING) =
      (if cc then (if af then IRQF_TRIGGER_RISING else IRQF_TRIGGER_FALLING)
       else 0) ∧
    get_irqf_trigger_flags ⟨pin, label, af, false⟩ =
      (if af then IRQF_TRIGGER_FALLING else IRQF_TRIGGER_RISING) := by
  cases af <;> cases cc <;>
    simp [get_irqf_trigger_flags, IRQF_TRIGGER_RISING, IRQF_TRIGGER_FALLING] <;>
    decide

/-- Claim C5: evaluation of the probe at the failing input — valid
platform data, GPIO setup succeeded, gpio_to_irq then fails — shows the
start attempt returning an error while the GPIO line is still
requested: the code keeps a resource across a failed start, against the
stated propagation policy. -/
theorem probe_irq_map_failure_keeps_gpio_requested :
    pps_gpio_probe probeEnvIrqMapFails =
      (Except.error (-22), ⟨true, false, false, false⟩) := by
  rfl

/-- Claim C6 counterexample: starting from a state holding an active
session, a first remove succeeds; the second remove on the same,
already-stopped device faults with a null dereference instead of
returning without error, so remove is not idempotent as claimed. -/
theorem second_remove_faults :
    (pps_gpio_remove startedRemoveState).2 = RemoveOutcome.returned 0 ∧
    (pps_gpio_remove (pps_gpio_remove startedRemoveState).1).2 =
      RemoveOutcome.null_deref := by
  exact ⟨rfl, rfl⟩

/-- Claim C6 amended: the first StopSession releases each resource
exactly once and clears the stored session reference, so a second call
performs no double release; but the second call on the already-stopped
session dereferences the cleared null session reference and faults
rather than completing without error. -/
theorem remove_releases_once_second_call_faults (s : RemoveState)
    (d : pps_gpio_device_data) (h : s.drvdata = some d) :
    (pps_gpio_remove s).2 = RemoveOutcome.returned 0 ∧
    (pps_gpio_remove s).1.drvdata = none ∧
    (pps_gpio_remove s).1.unregister_calls = s.unregister_calls + 1 ∧
    (pps_gpio_remove s).1.kfree_calls = s.kfree_calls + 1 ∧
    (pps_gpio_remove (pps_gpio_remove s).1).2 = RemoveOutcome.null_deref ∧
    (pps_gpio_remove (pps_gpio_remove s).1).1.unregister_calls =
      (pps_gpio_remove s).1.unregister_calls ∧
    (pps_gpio_remove (pps_gpio_remove s).1).1.kfree_calls =
      (pps_gpio_remove s).1.kfree_calls := by
  simp [pps_gpio_remove, h]

/-- Witness for the amended claim C6 at the concrete started state. -/
theorem remove_releases_once_second_call_faults_witness :
    startedRemoveState.drvdata = some startedDeviceData ∧
    ((pps_gpio_remove startedRemoveState).1.unregister_calls =
        startedRemoveState.unregister_calls + 1 ∧
      (pps_gpio_remove (pps_gpio_remove startedRemoveState).1).2 =
        RemoveOutcome.null_deref) :=
  ⟨rfl,
    (remove_releases_once_second_call_faults startedRemoveState
        startedDeviceData rfl).2.2.1,
    (remove_releases_once_second_call_faults startedRemoveState
        startedDeviceData rfl).2.2.2.2.1⟩

/-- Claim C7: every handler invocation returns IRQ_HANDLED, the outcome
of the final notification of any sequence is a function of that
notification and the static configuration alone (so failures on earlier
events, including consumer unavailability, cannot prevent its
classification and dispatch attempt), and the session is never
terminated by the handler. -/
theorem per_event_failures_isolated (pdata : pps_gpio_platform_data)
    (ns : List Notification) (n : Notification) :
    handleSeq pdata (ns ++ [n]) =
      handleSeq pdata ns ++ [handleNotification pdata n] ∧
    (handleNotification pdata n).ret = irqreturn.IRQ_HANDLED ∧
    (handleNotification pdata n).kind = classifyEdge pdata n.level ∧
    (handleNotification pdata n).dispatch_attempts =
      pps_gpio_irq_calls pdata n.ts n.level := by
  refine ⟨?_, rfl, rfl, rfl⟩
  simp [handleSeq]

/-- Claim C8: the handler leaves the whole device bookkeeping record,
in particular assert_falling_edge, capture_clear and gpio_pin,
untouched: the configuration is read-only during the session. -/
theorem handler_preserves_session_state (data : pps_gpio_device_data)
    (t : Nat) (level : Bool) :
    (pps_gpio_irq_handler data t level).1 = data ∧
    (pps_gpio_irq_handler data t level).1.pdata.assert_falling_edge =
      data.pdata.assert_falling_edge ∧
    (pps_gpio_irq_handler data t level).1.pdata.capture_clear =
      data.pdata.capture_clear ∧
    (pps_gpio_irq_handler data t level).1.pdata.gpio_pin =
      data.pdata.gpio_pin ∧
    (pps_gpio_irq_handler data t level).1.irq = data.irq ∧
    (pps_gpio_irq_handler data t level).2.2 = irqreturn.IRQ_HANDLED :=
  ⟨rfl, rfl, rfl, rfl, rfl, rfl⟩

/-- Claim C9: any platform data the device-tree path constructs has
capture_clear = false: the path reads only the assert-falling-edge
property and the allocation is zero-filled. -/
theorem devicetree_pdata_capture_clear_false (alloc_ok : Bool)
    (np : device_node) (pdata : pps_gpio_platform_data)
    (h : of_get_pps_gpio_pdata alloc_ok np = some pdata) :
    pdata.capture_clear = false := by
  cases alloc_ok with
  | false => simp [of_get_pps_gpio_pdata] at h
  | true =>
    cases hg : np.gpio0 with
    | none => simp [of_get_pps_gpio_pdata, hg] at h
    | some pin =>
      cases hp : np.assert_falling_edge_prop <;>
        simp [of_get_pps_gpio_pdata, hg, hp] at h <;>
        simp [← h]

/-- Witness for claim C9 on a device node with GPIO 5 and the
assert-falling-edge property present. -/
theorem devicetree_pdata_capture_clear_false_witness :
    of_get_pps_gpio_pdata true ⟨some 5, true⟩ =
      some ⟨5, "pps-gpio", true, false⟩ ∧
    (⟨5, "pps-gpio", true, false⟩ : pps_gpio_platform_data).capture_clear =
      false :=
  ⟨rfl, devicetree_pdata_capture_clear_false true ⟨some 5, true⟩
    ⟨5, "pps-gpio", true, false⟩ rfl⟩

/-- Claim C10: every successful probe registers a source whose mode
contains the assert-capture, assert-offset, assert-echo, can-wait and
timespec-format bits, contains the clear bits exactly when
capture_clear is set, and whose default parameters contain the
assert-capture and assert-offset bits always and the clear bits exactly
when capture_clear is set. -/
theorem registered_mode_and_params (env : ProbeEnv)
    (data : pps_gpio_device_data) (res : Resources)
    (h : pps_gpio_probe env = (Except.ok data, res)) :
    data.info.mode &&& PPS_CAPTUREASSERT = PPS_CAPTUREASSERT ∧
    data.info.mode &&& PPS_OFFSETASSERT = PPS_OFFSETASSERT ∧
    data.info.mode &&& PPS_ECHOASSERT = PPS_ECHOASSERT ∧
    data.info.mode &&& PPS_CANWAIT = PPS_CANWAIT ∧
    data.info.mode &&& PPS_TSFMT_TSPEC = PPS_TSFMT_TSPEC ∧
    data.info.mode &&& (PPS_CAPTURECLEAR ||| PPS_OFFSETCLEAR ||| PPS_ECHOCLEAR) =
      (if data.pdata.capture_clear then
        PPS_CAPTURECLEAR ||| PPS_OFFSETCLEAR ||| PPS_ECHOCLEAR
       else 0) ∧
    data.pps.default_params &&& (PPS_CAPTUREASSERT ||| PPS_OFFSETASSERT) =
      (PPS_CAPTUREASSERT ||| PPS_OFFSETASSERT) ∧
    data.pps.default_params &&& (PPS_CAPTURECLEAR ||| PPS_OFFSETCLEAR) =
      (if data.pdata.capture_clear then PPS_CAPTURECLEAR ||| PPS_OFFSETCLEAR
       else 0) := by
  have hshape : data.info.mode = probe_info_mode data.pdata ∧
      data.pps.default_params = probe_default_params data.pdata := by
    unfold pps_gpio_probe at h
    split at h
    · simp at h
    · split at h
      · simp at h
      · split at h
        · simp at h
        · split at h
          · simp at h
          · split at h
            · simp at h
            · split at h
              · simp at h
              · simp only [Prod.mk.injEq, Except.ok.injEq] at h
                obtain ⟨h1, -⟩ := h
                subst h1
                exact ⟨rfl, rfl⟩
  obtain ⟨hm, hp⟩ := hshape
  rw [hm, hp]
  cases hcc : data.pdata.capture_clear <;>
    simp [probe_info_mode, probe_default_params, hcc] <;> decide

/-- A probe environment in which every host call succeeds, with
clear-capture enabled. -/
def probeEnvAllOk : ProbeEnv :=
  ⟨some ⟨4, "pps-gpio", false, true⟩, true, true, 17, true, true, true⟩

/-- The device data the all-succeeding probe environment produces. -/
def dataAllOk : pps_gpio_device_data :=
  ⟨17, ⟨0x33⟩, ⟨0x11F3⟩, ⟨4, "pps-gpio", false, true⟩⟩

/-- Witness for claim C10 on the all-succeeding probe environment. -/
theorem registered_mode_and_params_witness :
    pps_gpio_probe probeEnvAllOk =
      (Except.ok dataAllOk, ⟨true, true, true, true⟩) ∧
    dataAllOk.info.mode &&& PPS_CAPTUREASSERT = PPS_CAPTUREASSERT ∧
    dataAllOk.info.mode &&&
        (PPS_CAPTURECLEAR ||| PPS_OFFSETCLEAR ||| PPS_ECHOCLEAR) =
      (if dataAllOk.pdata.capture_clear then
        PPS_CAPTURECLEAR ||| PPS_OFFSETCLEAR ||| PPS_ECHOCLEAR
       else 0) :=
  ⟨rfl,
    (registered_mode_and_params probeEnvAllOk dataAllOk
        ⟨true, true, true, true⟩ rfl).1,
    (registered_mode_and_params probeEnvAllOk dataAllOk
        ⟨true, true, true, true⟩ rfl).2.2.2.2.2.1⟩

end PpsGpio
